import Mathlib

/-!
Verification of the educational notebooks of the repository
`2017_python_course` against their natural-language specification.

The repository consists of two notebook files: an object-oriented
programming tutorial (classes `Complex`, `Dog`, `Sequence`, `Dna`,
`Protein`, `Reverser`, plus two scikit-learn dataset walkthroughs) and a
bioimage-analysis tutorial (`8-image-analysis.ipynb`: smoothing,
adaptive background subtraction, thresholding, watershed segmentation,
region-property extraction and a toy SVM classifier).

Python strings are embedded as `List Char` (so slicing `[::-1]` is
`List.reverse` and `str.translate` is `List.map`).  Python instance
attribute dictionaries are embedded as association lists from attribute
names to values.  uint8 images are embedded as functions from pixel
positions to `Nat` with arithmetic taken modulo 256 where the numpy
code wraps around.
-/

namespace OopNotebook

/-- Python attribute dictionary: an association list from attribute
names to string values (`List Char`).  `setAttr` overwrites an existing
binding or appends a fresh one, as Python attribute assignment does. -/
def setAttr : List (String × List Char) → String → List Char → List (String × List Char)
  | [], k, v => [(k, v)]
  | (k', v') :: rest, k, v =>
      if k' = k then (k, v) :: rest else (k', v') :: setAttr rest k v

/-- Python attribute lookup on the instance dictionary. -/
def getAttr : List (String × List Char) → String → Option (List Char)
  | [], _ => none
  | (k', v') :: rest, k => if k' = k then some v' else getAttr rest k

/-- `Reverser.__init__` (the second version of the class, whose body is
`self.public = name` and `self.__private = name[::-1]`).  Inside the
class body CPython name-mangles `__private` to `_Reverser__private`,
so that is the key the instance dictionary receives. -/
def reverserInit (name : List Char) : List (String × List Char) :=
  setAttr (setAttr [] "public" name) "_Reverser__private" name.reverse

/-- `Reverser.get_reverse`: inside the class body `self.__private` is
mangled, so it reads the `_Reverser__private` key. -/
def get_reverse (obj : List (String × List Char)) : Option (List Char) :=
  getAttr obj "_Reverser__private"

/-- The `Dog` class object: its class variables `kind = 'canine'` and
the mutable `tricks = []`, shared by all instances. -/
structure DogClass where
  kind : String
  tricks : List String

/-- The class variables as the class statement leaves them. -/
def DogClass.init : DogClass := ⟨"canine", []⟩

/-- A `Dog` instance: `__init__` stores only `self.name`; an
instance-level assignment to `kind` populates `instKind`. -/
structure Dog where
  name : String
  instKind : Option String

/-- `Dog.__init__(self, name)`: the instance dictionary holds only
`name`. -/
def Dog.init (n : String) : Dog := ⟨n, none⟩

/-- `Dog.add_trick`: `self.tricks` resolves to the class variable
(no instance attribute `tricks` is ever created), and `.append`
mutates that shared list in place. -/
def add_trick (c : DogClass) (_d : Dog) (t : String) : DogClass :=
  { c with tricks := c.tricks ++ [t] }

/-- Python attribute lookup for `kind`: the instance dictionary first,
then the class variable. -/
def Dog.getKind (c : DogClass) (d : Dog) : String :=
  d.instKind.getD c.kind

/-- Python attribute lookup for `tricks`: never set on an instance, so
it always resolves to the class variable. -/
def Dog.getTricks (c : DogClass) (_d : Dog) : List String :=
  c.tricks

/-- Instance-level assignment `e.kind = v`: writes the instance
dictionary, leaving the class variable untouched. -/
def Dog.setKind (d : Dog) (v : String) : Dog :=
  { d with instKind := some v }

/-- The `Complex` example class: `__init__(self, realpart, imagpart)`
stores `self.r = realpart` and `self.i = imagpart`. -/
structure Complex where
  r : ℚ
  i : ℚ

/-- Calling the `Complex` constructor with a list of positional
arguments: exactly two bind `realpart` and `imagpart`; any other
arity raises an uncaught `TypeError` (no `try`/`except` exists
anywhere in the repository). -/
def complexNew : List ℚ → Except String Complex
  | [realpart, imagpart] => .ok ⟨realpart, imagpart⟩
  | _ => .error "TypeError: __init__ missing required positional arguments"

/-- A `Dna` instance (inherits `name`/`sequence` from `Sequence`). -/
structure Dna where
  name : List Char
  sequence : List Char

/-- The translation table `str.maketrans('ACGTacgt', 'TGCAtgca')`:
the eight listed characters are mapped, every other character is left
unchanged (as `str.translate` does). -/
def complementChar (c : Char) : Char :=
  if c = 'A' then 'T'
  else if c = 'C' then 'G'
  else if c = 'G' then 'C'
  else if c = 'T' then 'A'
  else if c = 'a' then 't'
  else if c = 'c' then 'g'
  else if c = 'g' then 'c'
  else if c = 't' then 'a'
  else c

/-- `Dna.reverse_complement`: translate `self.sequence` through the
table, then reverse (`[::-1]`); returns the new string without
touching the instance attributes. -/
def Dna.reverse_complement (d : Dna) : List Char :=
  (d.sequence.map complementChar).reverse

/-- The eight characters the translation table covers. -/
def dnaAlphabet : List Char := ['A', 'C', 'G', 'T', 'a', 'c', 'g', 't']

/-- A `Protein` instance (inherits `name`/`sequence` from
`Sequence`). -/
structure Protein where
  name : List Char
  sequence : List Char

/-- The redefined `Protein.__eq__`: compares only `self.sequence`
with `other_instance.sequence`. -/
def Protein.eq (p1 p2 : Protein) : Bool :=
  p1.sequence == p2.sequence

end OopNotebook

namespace ImageAnalysis

/-- A pixel position of a 2-D image. -/
abbrev Pos := Nat × Nat

/-- uint8 subtraction as numpy performs it on `uint8` arrays:
`a - b` wraps around modulo 256 (for `a b < 256` this is the
two's-complement value `(a - b) mod 256`). -/
def uint8Sub (a b : Nat) : Nat := (a + 256 - b) % 256

/-- `nuc_smooth - nuc_smooth_bg` on the uint8 images, pixelwise. -/
def bgsubRaw (s bg : Pos → Nat) : Pos → Nat :=
  fun p => uint8Sub (s p) (bg p)

/-- `nuc_smooth_bgsub` after the masked assignment
`nuc_smooth_bgsub[nuc_smooth < nuc_smooth_bg] = 0`. -/
def nuc_smooth_bgsub (s bg : Pos → Nat) : Pos → Nat :=
  fun p => if s p < bg p then 0 else bgsubRaw s bg p

/-- `nuc_mask = nuc_smooth_bgsub > 10`, pixelwise. -/
def nuc_mask (s bg : Pos → Nat) : Pos → Bool :=
  fun p => decide (10 < nuc_smooth_bgsub s bg p)

/-- `seeds = np.copy(nuc_labeled); seeds[act_bgsub==0] = nuc_labeled.max()+1`
with `M = nuc_labeled.max()`. -/
def seeds (nuc_labeled act_bgsub : Pos → Nat) (M : Nat) : Pos → Nat :=
  fun p => if act_bgsub p = 0 then M + 1 else nuc_labeled p

/-- `act_ws[act_ws == nuc_labeled.max()+1] = 0`, applied to the raw
watershed output `ws` with `M = nuc_labeled.max()`. -/
def act_ws (ws : Pos → Nat) (M : Nat) : Pos → Nat :=
  fun p => if ws p = M + 1 then 0 else ws p

/-- `ground_truth = propdict_pH3['mean_intensity'] > 20`: the
elementwise strict comparison of the mean-intensity array, the label
vector subsequently passed to `svc.fit`. -/
def ground_truth (mean_intensity : List ℚ) : List Bool :=
  mean_intensity.map (fun x => decide (20 < x))

/-- A value stored under a property name of a `regionprops` record:
a scalar number, a `tuple`, or an `np.ndarray`. -/
inductive PVal where
  | num (q : ℚ)
  | tup (l : List ℚ)
  | arr (l : List ℚ)
deriving DecidableEq

/-- `type(v) in [tuple, np.ndarray]` — the non-scalar check of
`props2dict`. -/
def PVal.isNonScalar : PVal → Bool
  | .tup _ => true
  | .arr _ => true
  | .num _ => false

/-- One `regionprops` record: an ordered list of its property names
(what `for prop_name in props[0]` iterates over) together with the
value stored under each name. -/
structure RegionRecord where
  keys : List String
  val : String → PVal

/-- `props2dict(props)`: the keys are the property names of `props[0]`
whose value there is not a `tuple` or `np.ndarray`; under each key,
the values of all records in order (the trailing `np.array`
conversion keeps the order and length of the appended list). -/
def props2dict : List RegionRecord → List (String × List PVal)
  | [] => []
  | r :: rs =>
      (r.keys.filter (fun k => !(r.val k).isNonScalar)).map
        (fun k => (k, (r :: rs).map (fun x => x.val k)))

end ImageAnalysis

namespace ExternalInterfaces

/-- An external input/output operation a notebook cell performs. -/
inductive ExtEvent where
  | fileRead (path : String)
  | fileWrite (path : String)
  | datasetLoad (name : String)
deriving DecidableEq

/-- Whether an event writes a file. -/
def ExtEvent.isWrite : ExtEvent → Bool
  | .fileWrite _ => true
  | _ => false

/-- The external input/output operations of the OOP/machine-learning
notebook file: `datasets.load_breast_cancer()` and
`datasets.load_iris()`; no file is read or written. -/
def part000Events : List ExtEvent :=
  [.datasetLoad "breast_cancer", .datasetLoad "iris"]

/-- The external input/output operations of `8-image-analysis.ipynb`:
the single `io.imread('../data/HT29.tif')`; no file is written. -/
def imageAnalysisEvents : List ExtEvent :=
  [.fileRead "../data/HT29.tif"]

/-- All external input/output operations of the repository. -/
def repositoryEvents : List ExtEvent :=
  part000Events ++ imageAnalysisEvents

end ExternalInterfaces

namespace OopNotebook

/-- C1: after `x = Reverser(name)`, the external assignment
`x.__private = v` creates a new attribute under the plain name
`__private` (absent before the assignment), while the internally
stored `_Reverser__private` keeps `name[::-1]` unchanged, so
`x.get_reverse()` still returns `name[::-1]`: name mangling maps the
in-class `__private` to `_Reverser__private`. -/
theorem reverser_name_mangling (name v : List Char) :
    getAttr (reverserInit name) "__private" = none ∧
    getAttr (setAttr (reverserInit name) "__private" v) "__private" = some v ∧
    getAttr (setAttr (reverserInit name) "__private" v) "_Reverser__private"
      = some name.reverse ∧
    get_reverse (setAttr (reverserInit name) "__private" v) = some name.reverse :=
  ⟨rfl, rfl, rfl, rfl⟩

/-- C2: the mutable class variable `tricks = []` is shared across all
`Dog` instances: after `d.add_trick(t1)` and `e.add_trick(t2)`, both
`d.tricks` and `e.tricks` are `[t1, t2]`; by contrast the
instance-level assignment `e.kind = 'super-dog'` leaves `d.kind`
equal to `'canine'`. -/
theorem dog_shared_tricks (n1 n2 t1 t2 : String) :
    Dog.getTricks
        (add_trick (add_trick DogClass.init (Dog.init n1) t1) (Dog.init n2) t2)
        (Dog.init n1) = [t1, t2] ∧
    Dog.getTricks
        (add_trick (add_trick DogClass.init (Dog.init n1) t1) (Dog.init n2) t2)
        ((Dog.init n2).setKind "super-dog") = [t1, t2] ∧
    Dog.getKind
        (add_trick (add_trick DogClass.init (Dog.init n1) t1) (Dog.init n2) t2)
        (Dog.init n1) = "canine" ∧
    Dog.getKind
        (add_trick (add_trick DogClass.init (Dog.init n1) t1) (Dog.init n2) t2)
        ((Dog.init n2).setKind "super-dog") = "super-dog" :=
  ⟨rfl, rfl, rfl, rfl⟩

/-- C3: `Complex()` with no arguments fails with an uncaught
`TypeError` because `__init__` requires `realpart` and `imagpart`;
with both arguments supplied, construction succeeds and the instance
satisfies `x.r == realpart` and `x.i == imagpart`. -/
theorem complex_init_arity :
    (∃ msg, complexNew [] = .error msg) ∧
    ∀ realpart imagpart : ℚ, ∃ x : Complex,
      complexNew [realpart, imagpart] = .ok x ∧
        x.r = realpart ∧ x.i = imagpart :=
  ⟨⟨_, rfl⟩, fun realpart imagpart => ⟨⟨realpart, imagpart⟩, rfl, rfl, rfl⟩⟩

/-- On the eight characters of the translation table, the complement
map is an involution (A maps to T and back, C to G and back, case
preserved). -/
lemma complementChar_invol_of_mem (c : Char) (h : c ∈ dnaAlphabet) :
    complementChar (complementChar c) = c := by
  simp only [dnaAlphabet, List.mem_cons, List.not_mem_nil, or_false] at h
  rcases h with rfl | rfl | rfl | rfl | rfl | rfl | rfl | rfl <;> rfl

/-- C8: for a `Dna` whose sequence is over `ACGTacgt`,
`reverse_complement` returns the reverse of the character-wise
complement of the sequence, and building a new `Dna` from the result
and reverse-complementing again yields the original sequence. -/
theorem dna_reverse_complement_spec (d : Dna)
    (h : ∀ c ∈ d.sequence, c ∈ dnaAlphabet) :
    d.reverse_complement = (d.sequence.map complementChar).reverse ∧
    (Dna.mk d.name d.reverse_complement).reverse_complement = d.sequence := by
  refine ⟨rfl, ?_⟩
  show (((d.sequence.map complementChar).reverse.map complementChar)).reverse
      = d.sequence
  rw [List.map_reverse, List.reverse_reverse, List.map_map]
  have : ∀ c ∈ d.sequence, (complementChar ∘ complementChar) c = c := by
    intro c hc
    exact complementChar_invol_of_mem c (h c hc)
  calc d.sequence.map (complementChar ∘ complementChar)
      = d.sequence.map id := List.map_congr_left this
    _ = d.sequence := List.map_id d.sequence

/-- Witness for C8 at the notebook input
`Dna('gene1', 'ACTGCGACCAAGACATAG')`. -/
theorem dna_reverse_complement_spec_witness :
    (Dna.mk "gene1".data "ACTGCGACCAAGACATAG".data).reverse_complement
        = ("ACTGCGACCAAGACATAG".data.map complementChar).reverse ∧
    (Dna.mk "gene1".data
        (Dna.mk "gene1".data "ACTGCGACCAAGACATAG".data).reverse_complement
      ).reverse_complement = "ACTGCGACCAAGACATAG".data :=
  dna_reverse_complement_spec
    (Dna.mk "gene1".data "ACTGCGACCAAGACATAG".data) (by decide)

/-- C9: the redefined `Protein.__eq__` compares only the `sequence`
attribute: two instances are equal iff their sequences are equal,
regardless of their names; in particular two instances built from
equal constructor arguments compare equal. -/
theorem protein_eq_sequence (n1 s1 n2 s2 : List Char) :
    (Protein.eq ⟨n1, s1⟩ ⟨n2, s2⟩ = true ↔ s1 = s2) ∧
    Protein.eq ⟨n1, s1⟩ ⟨n2, s1⟩ = true := by
  constructor
  · simp [Protein.eq]
  · simp [Protein.eq]

end OopNotebook

namespace ImageAnalysis

/-- C4: every pixel at which the smoothed nucleus image is strictly
below the local background has value 0 in the background-subtracted
image, and the nucleus mask is true at exactly the pixels where the
background-subtracted image is strictly greater than the threshold
10. -/
theorem nuc_bgsub_mask_spec (s bg : Pos → Nat) (p q : Pos)
    (h : s p < bg p) :
    nuc_smooth_bgsub s bg p = 0 ∧
    (nuc_mask s bg q = true ↔ 10 < nuc_smooth_bgsub s bg q) := by
  constructor
  · unfold nuc_smooth_bgsub
    rw [if_pos h]
  · unfold nuc_mask
    exact decide_eq_true_iff

/-- Witness for C4 at the constant images `s = 3`, `bg = 5` and the
pixel `(0, 0)`. -/
theorem nuc_bgsub_mask_spec_witness :
    nuc_smooth_bgsub (fun _ => 3) (fun _ => 5) (0, 0) = 0 ∧
    (nuc_mask (fun _ => 3) (fun _ => 5) (0, 0) = true ↔
      10 < nuc_smooth_bgsub (fun _ => 3) (fun _ => 5) (0, 0)) :=
  nuc_bgsub_mask_spec (fun _ => 3) (fun _ => 5) (0, 0) (0, 0) (by decide)

/-- C5: if every pixel of the watershed output carries a nonzero seed
label (the watershed contract: each pixel is assigned to the basin of
one of the markers) and `M` bounds the nucleus labeling, then after
`act_ws[act_ws == M+1] = 0` no pixel carries the background seed
label `M+1`: every pixel is 0 or a label in `1 .. M`. -/
theorem act_ws_labels (nuc_labeled act_bgsub ws : Pos → Nat) (M : Nat)
    (hmax : ∀ q, nuc_labeled q ≤ M)
    (hws : ∀ p, ∃ q, ws p = seeds nuc_labeled act_bgsub M q ∧ ws p ≠ 0)
    (p : Pos) :
    act_ws ws M p = 0 ∨ (1 ≤ act_ws ws M p ∧ act_ws ws M p ≤ M) := by
  unfold act_ws
  by_cases h : ws p = M + 1
  · rw [if_pos h]
    exact Or.inl rfl
  · rw [if_neg h]
    right
    obtain ⟨q, hq, hnz⟩ := hws p
    unfold seeds at hq
    by_cases hb : act_bgsub q = 0
    · rw [if_pos hb] at hq
      exact absurd hq h
    · rw [if_neg hb] at hq
      refine ⟨Nat.one_le_iff_ne_zero.mpr hnz, ?_⟩
      rw [hq]
      exact hmax q

/-- Witness for C5: a one-label nucleus image on an all-background
activity channel, with the watershed output constantly the background
seed label. -/
theorem act_ws_labels_witness :
    act_ws (fun _ => 2) 1 (0, 0) = 0 ∨
      (1 ≤ act_ws (fun _ => 2) 1 (0, 0) ∧ act_ws (fun _ => 2) 1 (0, 0) ≤ 1) :=
  act_ws_labels (fun _ => 1) (fun _ => 0) (fun _ => 2) 1
    (fun _ => le_refl 1) (fun p => ⟨p, rfl, Nat.succ_ne_zero 1⟩) (0, 0)

/-- C6: the ground-truth label vector passed to `svc.fit` is the
elementwise thresholding of the pH3 mean-intensity array: entry `i`
is true iff `mean_intensity[i] > 20`. -/
theorem ground_truth_spec (mean_intensity : List ℚ) (i : Nat) (x : ℚ)
    (h : mean_intensity.get? i = some x) :
    (ground_truth mean_intensity).get? i = some (decide (20 < x)) ∧
    ((ground_truth mean_intensity).get? i = some true ↔ 20 < x) := by
  unfold ground_truth
  rw [List.get?_map, h]
  refine ⟨rfl, ?_⟩
  simp

/-- Witness for C6 at the mean-intensity array `[25, 3]` and index
0. -/
theorem ground_truth_spec_witness :
    (ground_truth [25, 3]).get? 0 = some (decide ((20 : ℚ) < 25)) ∧
    ((ground_truth [25, 3]).get? 0 = some true ↔ (20 : ℚ) < 25) :=
  ground_truth_spec [25, 3] 0 25 rfl

/-- C10: for a non-empty list of region records, `props2dict` keys are
exactly the property names of the first record whose value there is
not a tuple or ndarray; each associated array has one entry per
record, the `i`-th entry being the `i`-th record's value for that
property. -/
theorem props2dict_spec (r : RegionRecord) (rs : List RegionRecord)
    (k : String) (arr : List PVal) (i : Nat)
    (hmem : (k, arr) ∈ props2dict (r :: rs)) :
    (props2dict (r :: rs)).map Prod.fst
        = r.keys.filter (fun kk => !(r.val kk).isNonScalar) ∧
    arr.length = (r :: rs).length ∧
    arr.get? i = ((r :: rs).get? i).map (fun x => x.val k) := by
  refine ⟨?_, ?_, ?_⟩
  · unfold props2dict
    rw [List.map_map]
    exact List.map_id _
  · unfold props2dict at hmem
    obtain ⟨k', _hk', heq⟩ := List.mem_map.mp hmem
    obtain ⟨hk, harr⟩ := Prod.mk.injEq .. ▸ heq
    rw [← harr, List.length_map]
  · unfold props2dict at hmem
    obtain ⟨k', _hk', heq⟩ := List.mem_map.mp hmem
    obtain ⟨hk, harr⟩ := Prod.mk.injEq .. ▸ heq
    rw [← harr, ← hk, List.get?_map]

end ImageAnalysis


namespace ImageAnalysis

/-- A sample region record for the witness: scalar `area`, tuple
`centroid`. -/
def sampleRecord1 : RegionRecord :=
  ⟨["area", "centroid"], fun kk => if kk = "centroid" then .tup [1, 2] else .num 5⟩

/-- A second sample region record for the witness. -/
def sampleRecord2 : RegionRecord :=
  ⟨["area", "centroid"], fun kk => if kk = "centroid" then .tup [3, 4] else .num 7⟩

/-- Witness for C10 on two concrete region records. -/
theorem props2dict_spec_witness :
    (props2dict [sampleRecord1, sampleRecord2]).map Prod.fst
        = sampleRecord1.keys.filter (fun kk => !(sampleRecord1.val kk).isNonScalar) ∧
    ([PVal.num 5, PVal.num 7] : List PVal).length
        = ([sampleRecord1, sampleRecord2] : List RegionRecord).length ∧
    ([PVal.num 5, PVal.num 7] : List PVal).get? 1
        = (([sampleRecord1, sampleRecord2] : List RegionRecord).get? 1).map
            (fun x => x.val "area") :=
  props2dict_spec sampleRecord1 [sampleRecord2] "area" [.num 5, .num 7] 1
    (by decide)

end ImageAnalysis

namespace ExternalInterfaces

/-- C7: the only external inputs of the repository are the single
image read from `../data/HT29.tif` and the two bundled dataset
loaders (`load_breast_cancer`, `load_iris`); no file write occurs. -/
theorem repository_external_inputs :
    repositoryEvents
        = [.datasetLoad "breast_cancer", .datasetLoad "iris",
           .fileRead "../data/HT29.tif"] ∧
    repositoryEvents.all (fun e => !e.isWrite) = true :=
  ⟨rfl, rfl⟩

end ExternalInterfaces
